import Mathlib

/-!
Shallow embedding of the cluster pub/sub agent system
(src/agent/src/agents.rs, src/agent/src/gui.rs, src/agent/src/main.rs).

A Rust Task carries a prompt string together with a generated id and
creation timestamp; the routing, bridging and execution logic studied
here observes only the prompt, so a published Task is embedded as its
prompt string and a publish as a (topic, prompt) pair.  External
collaborators (the reasoning call, the capture utility, the file read)
enter the model as explicit outcome parameters.
-/

namespace BoomiAgents

/-- Routing decision of the message classifier (spec 4.5): a message is
either a fresh user query or an already-finished agent result. -/
inductive RoutingDecision
  | UserQuery
  | AgentResult
deriving DecidableEq

/-- Embedding of Rust str::starts_with on the character sequences of the
two strings. -/
def starts_with (s pat : String) : Bool :=
  pat.toList.isPrefixOf s.toList

/-- Embedding of Rust str::contains (substring search) on the character
sequences of the two strings. -/
def contains_str (s pat : String) : Bool :=
  s.toList.tails.any (fun t => pat.toList.isPrefixOf t)

/-- Embedding of Rust s.strip_prefix(pat).unwrap_or(s): drops pat from the
front of s when s starts with pat and returns s unchanged otherwise
(agents.rs line 530). -/
def stripMarkerOrSelf (s pat : String) : String :=
  if starts_with s pat then ⟨s.toList.drop pat.toList.length⟩ else s

/-- The marker condition of handle_events (agents.rs lines 745-751): the
prompt starts with the report heading marker or contains one of the five
keyword phrases. -/
def isAnalysisResult (prompt : String) : Bool :=
  starts_with prompt "### "
  || contains_str prompt "Analysis Report"
  || contains_str prompt "Key Insights"
  || contains_str prompt "Strategic Recommendations"
  || contains_str prompt "Executive Summary"
  || contains_str prompt "RESEARCH DATA FOR ANALYSIS"

/-- The classifier of spec 4.5 as realised by the code: a prompt matching
the marker condition is an AgentResult, everything else a UserQuery. -/
def classify (prompt : String) : RoutingDecision :=
  if isAnalysisResult prompt then .AgentResult else .UserQuery

/-- The five keyword phrases of the marker condition, collected as the
configured keyword list the spec speaks of. -/
def resultMarkerKeywords : List String :=
  ["Analysis Report", "Key Insights", "Strategic Recommendations",
   "Executive Summary", "RESEARCH DATA FOR ANALYSIS"]

/-- The NewTask arm of handle_events (agents.rs lines 739-769): for a
non-analysis agent the handler sends the prompt on the GUI response
channel exactly when the marker condition holds, and otherwise leaves the
task for agent processing; for the analysis agent the handler sends
nothing.  The returned value is the message sent on the response channel,
if any. -/
def handleNewTask (is_analysis_agent : Bool) (prompt : String) : Option String :=
  if !is_analysis_agent then
    if isAnalysisResult prompt then some prompt else none
  else
    none

/-- Outcome of one NewTask processed at the doctor node.  The task reaches
two independent consumers: the event handler spawned by handle_events,
whose only capability is sending on the GUI response channel (its runtime
argument is the unused binder of agents.rs line 719), and the subscribed
DoctorAgent itself. -/
structure DoctorTurn where
  guiForward : Option String
  toolInvoked : Bool

/-- Modelled from the spec: the tool-augmented reasoning-loop executor that
runs the DoctorAgent lives in the autoagents runtime crate, not under src;
src only attaches it (impl ReActExecutor for DoctorAgent, agents.rs line
366).  Per spec 4.4 each turn of that executor either issues a tool call or
produces a final textual result, a choice made by the external reasoning
call; it enters the model as the free parameter executorChoosesTool.  The
in-repo part is handleNewTask: the event handler classifies the prompt and
at most forwards it to the GUI channel; no information flows from it to the
executor. -/
def doctorProcessNewTask (executorChoosesTool : Bool) (prompt : String) : DoctorTurn :=
  { guiForward := handleNewTask false prompt
    toolInvoked := executorChoosesTool }

/-- Observable outcome of one agent execute call: the returned
Result<String, Error>, the list of (topic, prompt) publishes it performed,
and whether the external reasoning call was made. -/
structure ExecOutcome where
  result : Except String String
  publishes : List (String × String)
  llm_called : Bool

/-- External collaborators of CameraAgent::execute: whether one of the two
capture utilities produced the image file (agents.rs lines 187-241), the
outcome of reading the file back (fs::read, line 249), and the outcome of
the reasoning call on the image (context.llm().chat, line 277). -/
structure CameraEnv where
  capture_success : Bool
  read_image : Except String (List Nat)
  llm_chat : Except String String

/-- Embedding of CameraAgent::execute (agents.rs lines 165-318).  Capture
failure and read failure return completed result strings without calling
the reasoning model; a reasoning failure is converted to the string
"AI analysis failed: e" and both the success and the failure text are also
published to the camera_response topic under a "### " heading. -/
def cameraExecute (env : CameraEnv) (query : String) : ExecOutcome :=
  if !env.capture_success then
    { result := .ok "Camera capture failed - no image analysis available"
      publishes := []
      llm_called := false }
  else
    match env.read_image with
    | .error _ =>
        { result := .ok "Image file could not be read"
          publishes := []
          llm_called := false }
    | .ok _ =>
        match env.llm_chat with
        | .ok response_text =>
            { result := .ok response_text
              publishes := [("camera_response", "### Camera Analysis Result\n" ++ response_text)]
              llm_called := true }
        | .error e =>
            { result := .ok ("AI analysis failed: " ++ e)
              publishes := [("camera_response", "### Camera Analysis Error\n" ++ ("AI analysis failed: " ++ e))]
              llm_called := true }

/-- External collaborator of AnalysisAgent::execute: the outcome of the
reasoning call (context.llm().chat, agents.rs lines 426-429), already
projected to the response text that response.text().unwrap_or_default()
extracts. -/
structure AnalysisEnv where
  llm_chat : Except String String

/-- Embedding of AnalysisAgent::execute (agents.rs lines 377-448).  A
prompt equal to SELF_TEST short-circuits before any message is built.  On
the normal path the reasoning call is made and its failure is propagated
by the question-mark operator on line 429; on success the analysis text is
published to the analysis_response topic and returned. -/
def analysisExecute (env : AnalysisEnv) (prompt : String) : ExecOutcome :=
  if prompt = "SELF_TEST" then
    { result := .ok "Self-test completed successfully"
      publishes := []
      llm_called := false }
  else
    match env.llm_chat with
    | .error e =>
        { result := .error e
          publishes := []
          llm_called := true }
    | .ok analysis_result =>
        { result := .ok analysis_result
          publishes := [("analysis_response", analysis_result)]
          llm_called := true }

/-- The three agents of the system. -/
inductive AgentId
  | doctor
  | analysis
  | camera
deriving DecidableEq

/-- Topics each agent subscribes to: DoctorAgent via the three
subscribe_topic calls of run_doctor_agent (agents.rs lines 485-487),
AnalysisAgent via run_analysis_agent (line 592), CameraAgent via
run_camera_agent (line 670). -/
def subscriptions : AgentId → List String
  | .doctor => ["user_messages", "analysis_response", "camera_response"]
  | .analysis => ["analysis_agent"]
  | .camera => ["camera_requests"]

/-- Topics each agent publishes to: DoctorAgent through its two tools
(PublishTopicToAnalysis publishes to analysis_agent, agents.rs line 46;
CameraAnalysisTool publishes to camera_requests, line 106), AnalysisAgent
to analysis_response (line 442), CameraAgent to camera_response (lines 284
and 310). -/
def publishTargets : AgentId → List String
  | .doctor => ["analysis_agent", "camera_requests"]
  | .analysis => ["analysis_response"]
  | .camera => ["camera_response"]

/-- Whether a publish on the given topic is delivered back into the given
agent's own event stream: delivery follows subscriptions. -/
def deliversTo (topic : String) (a : AgentId) : Bool :=
  (subscriptions a).contains topic

/-- The GUI bridge loop of run_doctor_agent (agents.rs lines 524-547): a
message from the user channel that starts with USER_SEND: has the marker
stripped and the rest published as a new Task on the user_messages topic;
any other message is skipped.  The returned value is the (topic, prompt)
publish performed, if any. -/
def doctorBridgeStep (message : String) : Option (String × String) :=
  if starts_with message "USER_SEND:" then
    some ("user_messages", stripMarkerOrSelf message "USER_SEND:")
  else
    none

/-- One entry of the GUI chat transcript (gui.rs ChatMessage). -/
structure ChatMsg where
  content : String
  is_user : Bool
deriving DecidableEq

/-- Mutable state of the chat window (gui.rs ChatApp): the transcript and
the text currently typed in the input field. -/
structure ChatAppState where
  messages : List ChatMsg
  input_value : String
deriving DecidableEq

/-- The GUI message union (gui.rs Message). -/
inductive GuiMessage
  | InputChanged (value : String)
  | SendMessage
  | ReceivedDoctorResponse (response : String)
  | Tick
deriving DecidableEq

/-- The iced Task an update returns: nothing, an immediate Tick
(Task.done), or a Tick scheduled after sleeping the given number of
seconds (Task.perform of an async sleep). -/
inductive Scheduled
  | nothing
  | tickNow
  | tickAfterSecs (n : Nat)
deriving DecidableEq

/-- Result of one ChatApp::update step: the new window state, what remains
queued on the outbound response channel, the strings sent on the user
channel towards the doctor agent, and the scheduled follow-up task. -/
structure GuiStep where
  state : ChatAppState
  respQueue : List String
  userSends : List String
  scheduled : Scheduled
deriving DecidableEq

/-- Embedding of ChatApp::update (gui.rs lines 47-107).  The outbound
response channel is made explicit as the list respQueue of strings queued
at the time of the call; Tick drains it with a try_recv loop, appending
each drained string to the transcript as a non-user message, and always
schedules the next Tick one second later.  SendMessage with non-blank
input appends the user message, sends USER_SEND: plus the content to the
agent, clears the input and triggers an immediate Tick. -/
def guiUpdate (st : ChatAppState) (respQueue : List String) (msg : GuiMessage) : GuiStep :=
  match msg with
  | .InputChanged v =>
      { state := { st with input_value := v }
        respQueue := respQueue
        userSends := []
        scheduled := .nothing }
  | .SendMessage =>
      if st.input_value.trim.isEmpty then
        { state := st, respQueue := respQueue, userSends := [], scheduled := .nothing }
      else
        { state :=
            { messages := st.messages ++ [{ content := st.input_value, is_user := true }]
              input_value := "" }
          respQueue := respQueue
          userSends := ["USER_SEND:" ++ st.input_value]
          scheduled := .tickNow }
  | .ReceivedDoctorResponse r =>
      { state := { st with messages := st.messages ++ [{ content := r, is_user := false }] }
        respQueue := respQueue
        userSends := []
        scheduled := .nothing }
  | .Tick =>
      { state :=
          { st with messages :=
              st.messages ++ respQueue.map (fun m => { content := m, is_user := false }) }
        respQueue := []
        userSends := []
        scheduled := .tickAfterSecs 1 }

/-- The shared cluster secret: every runtime in src is constructed with the
literal cluster-cookie (agents.rs lines 474, 581, 658, 843). -/
def clusterCookie : String := "cluster-cookie"

/-- Session-layer error relevant here (spec 7): a handshake with a
mismatched cookie is rejected with AuthRejected. -/
inductive BusError
  | AuthRejected
deriving DecidableEq

/-- The host side of the session layer: its shared cookie and the node
names of the admitted peers. -/
structure HostState where
  cookie : String
  peers : List String
deriving DecidableEq

/-- Modelled from the spec: the handshake of ClusterHostRuntime lives in
the autoagents runtime crate, not under src; src only constructs the host
with the shared cookie (run_cluster_host, agents.rs lines 839-844) and the
clients presenting the same literal (for example run_doctor_agent, lines
470-478).  Spec 4.3: on each accepted connection the host performs a
handshake carrying node identity and cookie, rejects on cookie mismatch
with AuthRejected, and otherwise treats the connection as a full cluster
peer. -/
def handshake (st : HostState) (nodeName clientCookie : String) : Except BusError HostState :=
  if clientCookie = st.cookie then
    .ok { st with peers := st.peers ++ [nodeName] }
  else
    .error .AuthRejected

/-- Modelled from the spec: the host relay of ClusterHostRuntime, not under
src.  Spec 4.3: a publish is re-broadcast to every other connected peer
whose declared subscriptions include the topic; only admitted peers are
connected, so the recipients of a topic's events are the subscribed
peers. -/
def relayRecipients (st : HostState) (declaredSubs : String → List String) (topic : String) :
    List String :=
  st.peers.filter (fun n => (declaredSubs n).contains topic)

end BoomiAgents

namespace BoomiAgents

theorem starts_with_iff (s pat : String) :
    starts_with s pat = true ↔ pat.toList <+: s.toList := by
  simp [ starts_with, List.isPrefixOf_iff_prefix]

theorem contains_str_iff (s pat : String) :
    contains_str s pat = true ↔ pat.toList <:+: s.toList := by
  simp only [contains_str, List.any_eq_true, List.isPrefixOf_iff_prefix,
    List.mem_tails, List.infix_iff_prefix_suffix]
  constructor
  · rintro ⟨t, hts, hpat⟩
    exact ⟨t, hpat, hts⟩
  · rintro ⟨t, hpat, hts⟩
    exact ⟨t, hts, hpat⟩

theorem isAnalysisResult_iff (p : String) :
    isAnalysisResult p = true ↔
      ("### ".toList <+: p.toList ∨
        ∃ k ∈ resultMarkerKeywords, k.toList <:+: p.toList) := by
  simp only [isAnalysisResult, Bool.or_eq_true, starts_with_iff, contains_str_iff,
    resultMarkerKeywords, List.mem_cons, List.not_mem_nil, or_false, exists_eq_or_imp,
    exists_eq_left]
  tauto

theorem toList_append (a b : String) : (a ++ b).toList = a.toList ++ b.toList := by
  simp [String.toList]

theorem starts_with_append_left (s t p : String) (h : starts_with s p = true) :
    starts_with (s ++ t) p = true := by
  rw [starts_with_iff] at h ⊢
  rw [toList_append]
  exact h.trans (List.prefix_append _ _)

theorem starts_with_self_append (p c : String) : starts_with (p ++ c) p = true := by
  rw [starts_with_iff, toList_append]
  exact List.prefix_append _ _

theorem stripMarker_self_append (p c : String) : stripMarkerOrSelf (p ++ c) p = c := by
  rw [stripMarkerOrSelf, if_pos (starts_with_self_append p c), toList_append, List.drop_left]
  rfl

/-- A prompt carrying the report heading marker is classified AgentResult
and the doctor-side handler forwards it verbatim to the GUI channel. -/
theorem marked_prompt_routed (p : String) (h : starts_with p "### " = true) :
    classify p = RoutingDecision.AgentResult ∧ handleNewTask false p = some p := by
  have hi : isAnalysisResult p = true := by simp [isAnalysisResult, h]
  exact ⟨by simp [classify, hi], by simp [handleNewTask, hi]⟩

/-- Claim C1: a NewTask reaching a non-analysis agent's event handler is
classified AgentResult exactly when its prompt starts with the report
heading marker or contains one of the five configured keyword phrases, in
which case the handler routes the prompt directly to the GUI output
channel; every other prompt is classified UserQuery and left for agent
processing. -/
theorem doctor_newTask_routing (prompt : String) :
    (classify prompt = RoutingDecision.AgentResult ↔
      ("### ".toList <+: prompt.toList ∨
        ∃ k ∈ resultMarkerKeywords, k.toList <:+: prompt.toList)) ∧
    (classify prompt = RoutingDecision.AgentResult →
      handleNewTask false prompt = some prompt) ∧
    (classify prompt = RoutingDecision.UserQuery →
      handleNewTask false prompt = none) := by
  by_cases h : isAnalysisResult prompt = true
  · refine ⟨iff_of_true (by simp [classify, h]) ((isAnalysisResult_iff prompt).mp h),
      fun _ => by simp [handleNewTask, h], fun hq => ?_⟩
    simp [classify, h] at hq
  · have hf : isAnalysisResult prompt = false := by
      revert h
      cases isAnalysisResult prompt <;> simp
    refine ⟨iff_of_false (by simp [classify, hf])
        (fun hr => h ((isAnalysisResult_iff prompt).mpr hr)),
      fun ha => ?_, fun _ => by simp [handleNewTask, hf]⟩
    simp [classify, hf] at ha

theorem doctor_newTask_routing_witness :
    handleNewTask false "### report" = some "### report" ∧
    handleNewTask false "hello doctor" = none :=
  ⟨(doctor_newTask_routing "### report").2.1 (by decide),
   (doctor_newTask_routing "hello doctor").2.2 (by decide)⟩

/-- Claim C2, counterexample: a concrete AgentResult-classified message on
which the reasoning executor chooses a tool call does trigger a tool
invocation; the event handler only forwards the prompt to the GUI channel
and has no way to suppress the executor, so classification is not a hard
override. -/
theorem agentResult_can_trigger_tool_call :
    classify "### Camera Analysis Result\nall clear" = RoutingDecision.AgentResult ∧
    (doctorProcessNewTask true "### Camera Analysis Result\nall clear").toolInvoked = true :=
  ⟨by decide, rfl⟩

/-- Claim C2, amended: an AgentResult-classified message is routed directly
to the GUI output channel by the event handler, but tool invocation is not
suppressed there: the handler sends only on the GUI channel and ignores its
runtime handle, so whether a tool call happens is exactly the reasoning
executor's own choice. -/
theorem agentResult_routed_to_gui_tools_ungated (choice : Bool) (prompt : String)
    (h : classify prompt = RoutingDecision.AgentResult) :
    (doctorProcessNewTask choice prompt).guiForward = some prompt ∧
    (doctorProcessNewTask choice prompt).toolInvoked = choice := by
  have hi : isAnalysisResult prompt = true := by
    by_contra hc
    simp [classify, hc] at h
  exact ⟨by simp [doctorProcessNewTask, handleNewTask, hi], rfl⟩

theorem agentResult_routed_to_gui_tools_ungated_witness :
    (doctorProcessNewTask true "### report").guiForward = some "### report" ∧
    (doctorProcessNewTask true "### report").toolInvoked = true :=
  agentResult_routed_to_gui_tools_ungated true "### report" (by decide)

/-- Claim C3: for every agent the topics it publishes results or tool
requests to are disjoint from the topics it subscribes to, so an agent's
own publish is never delivered back into its own event stream; the camera
and analysis execute models indeed publish only to their declared target
topics. -/
theorem agent_topic_graph_loop_free :
    (∀ a : AgentId, ∀ t ∈ publishTargets a, deliversTo t a = false) ∧
    (∀ (env : CameraEnv) (q : String), ∀ tp ∈ (cameraExecute env q).publishes,
      tp.1 ∈ publishTargets AgentId.camera) ∧
    (∀ (env : AnalysisEnv) (p : String), ∀ tp ∈ (analysisExecute env p).publishes,
      tp.1 ∈ publishTargets AgentId.analysis) := by
  refine ⟨?_, ?_, ?_⟩
  · intro a
    cases a <;> decide
  · rintro ⟨cs, ri, lc⟩ q tp htp
    cases cs with
    | false => simp [cameraExecute] at htp
    | true =>
      cases ri with
      | error e => simp [cameraExecute] at htp
      | ok bytes =>
        cases lc with
        | ok r =>
          simp [cameraExecute] at htp
          simp [htp, publishTargets]
        | error e =>
          simp [cameraExecute] at htp
          simp [htp, publishTargets]
  · rintro ⟨lc⟩ p tp htp
    by_cases hp : p = "SELF_TEST"
    · simp [analysisExecute, hp] at htp
    · cases lc with
      | error e => simp [analysisExecute, hp] at htp
      | ok r =>
        simp [analysisExecute, hp] at htp
        simp [htp, publishTargets]

theorem agent_topic_graph_loop_free_witness :
    deliversTo "analysis_agent" AgentId.doctor = false ∧
    ("camera_response", "### Camera Analysis Result\n" ++ "ok").1
      ∈ publishTargets AgentId.camera :=
  ⟨agent_topic_graph_loop_free.1 AgentId.doctor "analysis_agent" (by decide),
   agent_topic_graph_loop_free.2.1 ⟨true, Except.ok [], Except.ok "ok"⟩ "q"
     ("camera_response", "### Camera Analysis Result\n" ++ "ok") (by simp [cameraExecute])⟩

/-- Claim C4, counterexample: AnalysisAgent::execute applies the
question-mark operator to the reasoning call, so an external reasoning
failure is propagated as an error instead of being returned as a completed
result. -/
theorem analysis_execute_propagates_reasoning_failure :
    (analysisExecute ⟨Except.error "connection refused"⟩ "analyze my ECG").result
      = Except.error "connection refused" := by
  simp [analysisExecute]

/-- Claim C4, amended: CameraAgent::execute always returns a completed
result, describing capture, read and reasoning failures as result text,
but AnalysisAgent::execute propagates an external reasoning failure as an
error on every non-self-test prompt. -/
theorem camera_failures_completed_analysis_propagates
    (env : CameraEnv) (query e prompt : String) (h : prompt ≠ "SELF_TEST") :
    (∃ s, (cameraExecute env query).result = Except.ok s) ∧
    (cameraExecute ⟨true, Except.ok [], Except.error e⟩ query).result
      = Except.ok ("AI analysis failed: " ++ e) ∧
    (analysisExecute ⟨Except.error e⟩ prompt).result = Except.error e := by
  refine ⟨?_, rfl, by simp [analysisExecute, h]⟩
  obtain ⟨cs, ri, lc⟩ := env
  cases cs with
  | false => exact ⟨_, rfl⟩
  | true =>
    cases ri with
    | error msg => exact ⟨_, rfl⟩
    | ok bytes =>
      cases lc with
      | ok r => exact ⟨r, rfl⟩
      | error msg => exact ⟨_, rfl⟩

theorem camera_failures_completed_analysis_propagates_witness :
    (∃ s, (cameraExecute ⟨false, Except.ok [], Except.ok "r"⟩ "q").result = Except.ok s) ∧
    (cameraExecute ⟨true, Except.ok [], Except.error "boom"⟩ "q").result
      = Except.ok ("AI analysis failed: " ++ "boom") ∧
    (analysisExecute ⟨Except.error "boom"⟩ "analyze").result = Except.error "boom" :=
  camera_failures_completed_analysis_propagates
    ⟨false, Except.ok [], Except.ok "r"⟩ "q" "boom" "analyze" (by decide)

/-- Claim C5: on the exact prompt SELF_TEST the AnalysisAgent returns the
fixed success string, makes no external reasoning call and performs no
publish. -/
theorem analysis_self_test_short_circuit (env : AnalysisEnv) :
    analysisExecute env "SELF_TEST" =
      { result := Except.ok "Self-test completed successfully"
        publishes := []
        llm_called := false } := by
  simp [analysisExecute]

/-- Claim C6: the classifier is total and deterministic: it is a function
defined on every string, equal inputs yield equal routing decisions, every
input yields one of the two decisions, and content matching no marker
defaults to UserQuery. -/
theorem classify_total_deterministic_default (s t : String) :
    (s = t → classify s = classify t) ∧
    (classify s = RoutingDecision.UserQuery ∨ classify s = RoutingDecision.AgentResult) ∧
    (isAnalysisResult s = false → classify s = RoutingDecision.UserQuery) := by
  refine ⟨fun h => by rw [h], ?_, fun h => by simp [classify, h]⟩
  by_cases h : isAnalysisResult s = true
  · exact Or.inr (by simp [classify, h])
  · exact Or.inl (by simp [classify, h])

theorem classify_total_deterministic_default_witness :
    classify "check my pulse" = classify "check my pulse" ∧
    classify "check my pulse" = RoutingDecision.UserQuery :=
  ⟨(classify_total_deterministic_default "check my pulse" "check my pulse").1 rfl,
   (classify_total_deterministic_default "check my pulse" "check my pulse").2.2 (by decide)⟩

/-- Claim C7, counterexample: an inbound command carrying the prefix SEND:
is skipped by the bridge and nothing is published, because the marker the
code recognises is USER_SEND:, so the claim stated with prefix SEND: fails
on the concrete input SEND:hello. -/
theorem send_command_without_user_marker_skipped :
    starts_with "SEND:hello" "SEND:" = true ∧
    doctorBridgeStep "SEND:hello" = none := by
  exact ⟨by decide, by decide⟩

/-- Claim C7, amended: the bridge marker is USER_SEND: (attached by the GUI
send handler): an inbound message of the form USER_SEND: followed by text
has the marker stripped and the text published as a new Task on the
user_messages topic, and every message not starting with USER_SEND: is
skipped with nothing published. -/
theorem bridge_user_send_contract (message content : String) :
    (starts_with message "USER_SEND:" = false → doctorBridgeStep message = none) ∧
    doctorBridgeStep ("USER_SEND:" ++ content) = some ("user_messages", content) := by
  constructor
  · intro h
    simp [doctorBridgeStep, h]
  · simp [doctorBridgeStep, starts_with_self_append, stripMarker_self_append]

theorem bridge_user_send_contract_witness :
    doctorBridgeStep "hello" = none ∧
    doctorBridgeStep ("USER_SEND:" ++ "check my ECG") = some ("user_messages", "check my ECG") :=
  ⟨(bridge_user_send_contract "hello" "x").1 (by decide),
   (bridge_user_send_contract "hello" "check my ECG").2⟩

/-- Claim C8: a client presenting a cookie different from the host's shared
cluster cookie is rejected at handshake with AuthRejected and, not being a
peer, never appears among the recipients of any topic's events, while a
client presenting the matching cookie is admitted as a peer. -/
theorem host_cookie_handshake_gate (st : HostState) (nodeName ck : String)
    (declaredSubs : String → List String) (topic : String) :
    (ck ≠ st.cookie → handshake st nodeName ck = Except.error BusError.AuthRejected) ∧
    (ck = st.cookie → handshake st nodeName ck =
      Except.ok { cookie := st.cookie, peers := st.peers ++ [nodeName] }) ∧
    (nodeName ∉ st.peers → nodeName ∉ relayRecipients st declaredSubs topic) := by
  refine ⟨fun h => by simp [handshake, h], fun h => by simp [handshake, h], fun h hmem => ?_⟩
  exact h (List.mem_filter.mp hmem).1

theorem host_cookie_handshake_gate_witness :
    handshake ⟨clusterCookie, []⟩ "intruder" "wrong-cookie" = Except.error BusError.AuthRejected ∧
    handshake ⟨clusterCookie, []⟩ "doctor_client" clusterCookie =
      Except.ok ⟨clusterCookie, ["doctor_client"]⟩ ∧
    "intruder" ∉ relayRecipients ⟨clusterCookie, []⟩ (fun _ => ["user_messages"]) "user_messages" :=
  ⟨(host_cookie_handshake_gate ⟨clusterCookie, []⟩ "intruder" "wrong-cookie"
      (fun _ => ["user_messages"]) "user_messages").1 (by decide),
   (host_cookie_handshake_gate ⟨clusterCookie, []⟩ "doctor_client" clusterCookie
      (fun _ => ["user_messages"]) "user_messages").2.1 rfl,
   (host_cookie_handshake_gate ⟨clusterCookie, []⟩ "intruder" "wrong-cookie"
      (fun _ => ["user_messages"]) "user_messages").2.2 (by decide)⟩

/-- Claim C9: on every Tick the GUI drains the whole outbound response
queue, appending each drained string to the transcript as a non-user
message in arrival order, leaves the queue empty, sends nothing to the
agent, and schedules exactly one further Tick after a one second delay. -/
theorem gui_tick_polls_and_drains (st : ChatAppState) (queue : List String) :
    (guiUpdate st queue GuiMessage.Tick).state.messages =
      st.messages ++ queue.map (fun m => { content := m, is_user := false }) ∧
    (guiUpdate st queue GuiMessage.Tick).state.input_value = st.input_value ∧
    (guiUpdate st queue GuiMessage.Tick).respQueue = [] ∧
    (guiUpdate st queue GuiMessage.Tick).userSends = [] ∧
    (guiUpdate st queue GuiMessage.Tick).scheduled = Scheduled.tickAfterSecs 1 :=
  ⟨rfl, rfl, rfl, rfl, rfl⟩

/-- Claim C10: every publish CameraAgent::execute performs, on the success
path and on the reasoning-failure path alike, goes to the camera_response
topic with a prompt beginning with the report heading marker, so the doctor
side classifies it AgentResult and forwards it directly to the GUI. -/
theorem camera_publishes_always_classified_results
    (env : CameraEnv) (query : String) (tp : String × String)
    (h : tp ∈ (cameraExecute env query).publishes) :
    tp.1 = "camera_response" ∧ starts_with tp.2 "### " = true ∧
    classify tp.2 = RoutingDecision.AgentResult ∧
    handleNewTask false tp.2 = some tp.2 := by
  obtain ⟨cs, ri, lc⟩ := env
  cases cs with
  | false => simp [cameraExecute] at h
  | true =>
    cases ri with
    | error e => simp [cameraExecute] at h
    | ok bytes =>
      cases lc with
      | ok r =>
        simp [cameraExecute] at h
        have hsw : starts_with tp.2 "### " = true := by
          rw [h]
          exact starts_with_append_left _ _ _ (by decide)
        obtain ⟨hc, hf⟩ := marked_prompt_routed tp.2 hsw
        exact ⟨by rw [h], hsw, hc, hf⟩
      | error e =>
        simp [cameraExecute] at h
        have hsw : starts_with tp.2 "### " = true := by
          rw [h]
          exact starts_with_append_left _ _ _ (by decide)
        obtain ⟨hc, hf⟩ := marked_prompt_routed tp.2 hsw
        exact ⟨by rw [h], hsw, hc, hf⟩

theorem camera_publishes_always_classified_results_witness :
    ("camera_response", "### Camera Analysis Result\n" ++ "ok").1 = "camera_response" ∧
    starts_with ("camera_response", "### Camera Analysis Result\n" ++ "ok").2 "### " = true ∧
    classify ("camera_response", "### Camera Analysis Result\n" ++ "ok").2
      = RoutingDecision.AgentResult ∧
    handleNewTask false ("camera_response", "### Camera Analysis Result\n" ++ "ok").2
      = some ("camera_response", "### Camera Analysis Result\n" ++ "ok").2 :=
  camera_publishes_always_classified_results ⟨true, Except.ok [], Except.ok "ok"⟩ "q"
    ("camera_response", "### Camera Analysis Result\n" ++ "ok") (by simp [cameraExecute])

end BoomiAgents
